import Mathlib

/-!
Shallow embedding of the realsense-recorder-cli capture-align-persist
pipeline: `src/recorder.py` (DataRecorder), `src/hardware/camera_manager.py`
(CameraManager), `src/hardware/frame_capture.py` (FrameCapturer) and the
recording loop of `src/cli.py` (main).  External effects (device enumeration,
stream configuration, pipeline start/stop, disk writes, the per-frame sensor
outcome) are modelled as explicit environment parameters; numpy arrays are
modelled by their dtype and shape, which is all the recorder inspects.
-/

namespace RealsenseRecorder

/-! ## Numpy arrays, as seen by the recorder (dtype and shape only) -/

inductive Dtype
  | uint8
  | uint16
  | other
  deriving DecidableEq, Repr

structure NpArray where
  dtype : Dtype
  shape : List Nat
  deriving DecidableEq, Repr

/-- numpy `ndim` is the length of the shape tuple. -/
def NpArray.ndim (a : NpArray) : Nat := a.shape.length

/-! ## Errors (src/hardware/exceptions.py plus the Python builtins used) -/

/-- Errors raised by `DataRecorder.save_frame_pair`: `ValueError` for shape or
dtype validation, `IOError`/`OSError` for a failed write. -/
inductive SaveError
  | validation
  | ioFailure
  deriving DecidableEq, Repr

/-- The cause recorded when `CameraManager.connect` fails; every cause is
re-raised as a `CameraConnectionError` by the surrounding `except` block. -/
inductive ConnectFailure
  | noDevices
  | indexOutOfRange
  | indexError
  | configFailed
  | startFailed
  deriving DecidableEq, Repr

/-- `FrameCaptureError` message kinds raised by `FrameCapturer`. -/
inductive CaptureError
  | captureTimeout
  | captureFailed
  | unexpected
  | depthScaleFailed
  deriving DecidableEq, Repr

/-! ## DataRecorder (src/recorder.py) -/

/-- Fixed stream constants from `CameraManager` (class constants). -/
def RGB_WIDTH : Nat := 1280

def RGB_HEIGHT : Nat := 800

def DEPTH_WIDTH : Nat := 1280

def DEPTH_HEIGHT : Nat := 720

/-- Python `f"{n:0wd}"` for a nonnegative integer: decimal digits of `n`
left-padded with zeros to a minimum width `w`. -/
def padZero (w n : Nat) : String :=
  let s := toString n
  if s.length < w then String.mk (List.replicate (w - s.length) '0') ++ s else s

/-- Outcome of the two disk writes attempted by `save_frame_pair`:
whether `cv2.imwrite` reports success, and whether `np.save` succeeds. -/
structure WriteEnv where
  rgbWriteOk : Bool
  depthWriteOk : Bool
  deriving DecidableEq, Repr

instance {ε α : Type} [DecidableEq ε] [DecidableEq α] : DecidableEq (Except ε α) := fun a b =>
  match a, b with
  | Except.error x, Except.error y =>
    if h : x = y then Decidable.isTrue (congrArg Except.error h)
    else Decidable.isFalse (fun hc => h (Except.error.inj hc))
  | Except.error _, Except.ok _ => Decidable.isFalse (fun hc => Except.noConfusion hc)
  | Except.ok _, Except.error _ => Decidable.isFalse (fun hc => Except.noConfusion hc)
  | Except.ok x, Except.ok y =>
    if h : x = y then Decidable.isTrue (congrArg Except.ok h)
    else Decidable.isFalse (fun hc => h (Except.ok.inj hc))

/-- Result of one `save_frame_pair` call: the files successfully written, in
order, and either the returned pair of paths or the raised error. -/
structure SaveOutcome where
  written : List String
  result : Except SaveError (String × String)
  deriving DecidableEq, Repr

/-- `DataRecorder.save_frame_pair(frame_idx, rgb_array, depth_array,
session_dir)`.  The source validates (in order, with Python short-circuit):
`rgb_array.dtype != uint8 or rgb_array.ndim != 3 or rgb_array.shape[2] != 3`,
then `depth_array.dtype != uint16 or depth_array.ndim != 2`, raising
`ValueError`; only then does it build the filenames, write the PNG (raising
`IOError` when `cv2.imwrite` returns false) and the NPY (where a failing
`np.save` raises `OSError`), and return both paths. -/
def save_frame_pair (frame_idx : Nat) (rgb_array depth_array : NpArray)
    (session_dir : String) (env : WriteEnv) : SaveOutcome :=
  let rgb_path := session_dir ++ "/rgb/frame_" ++ padZero 6 frame_idx ++ "_rgb.png"
  let depth_path := session_dir ++ "/depth/frame_" ++ padZero 6 frame_idx ++ "_depth.npy"
  if ¬(rgb_array.dtype = Dtype.uint8 ∧ rgb_array.ndim = 3 ∧ rgb_array.shape.getD 2 0 = 3) then
    { written := [], result := Except.error SaveError.validation }
  else if ¬(depth_array.dtype = Dtype.uint16 ∧ depth_array.ndim = 2) then
    { written := [], result := Except.error SaveError.validation }
  else if env.rgbWriteOk = false then
    { written := [], result := Except.error SaveError.ioFailure }
  else if env.depthWriteOk = false then
    { written := [rgb_path], result := Except.error SaveError.ioFailure }
  else
    { written := [rgb_path, depth_path], result := Except.ok (rgb_path, depth_path) }

/-- Local wall-clock time, the input of `datetime.now().strftime(...)`. -/
structure LocalDateTime where
  year : Nat
  month : Nat
  day : Nat
  hour : Nat
  minute : Nat
  second : Nat
  deriving DecidableEq, Repr

/-- `datetime.strftime("%Y%m%d_%H%M%S")`: year padded to 4 digits, every
other field to 2. -/
def strftimeSession (t : LocalDateTime) : String :=
  padZero 4 t.year ++ padZero 2 t.month ++ padZero 2 t.day ++ "_" ++
    padZero 2 t.hour ++ padZero 2 t.minute ++ padZero 2 t.second

/-- `DataRecorder.create_session_directory(base_dir)` over a filesystem
modelled as the list of existing directories.  `expanduser` is the identity
on paths without a leading tilde, which is the only case the claims touch.
The source runs `mkdir(parents=True, exist_ok=True)` on the base directory
and on the `rgb` and `depth` subdirectories (the latter two create the
session directory itself via `parents=True`), then returns the session
directory path. -/
def create_session_directory (existingDirs : List String) (base_dir : String)
    (now : LocalDateTime) : List String × String :=
  let session_dir := base_dir ++ "/session_" ++ strftimeSession now
  (existingDirs ++
      [base_dir, session_dir, session_dir ++ "/rgb", session_dir ++ "/depth"],
    session_dir)

/-! ## CameraManager (src/hardware/camera_manager.py) -/

structure DeviceInfo where
  name : String
  serial : String
  firmware : String
  product_id : String
  deriving DecidableEq, Repr

/-- The mutable fields of `CameraManager`: `self.pipeline`, `self.config`,
`self.device`, each `None` until assigned. -/
structure CameraManager where
  pipeline : Option Unit
  config : Option Unit
  device : Option Unit
  deriving DecidableEq, Repr

/-- `CameraManager.__init__`: all three fields start as `None`. -/
def CameraManager.init : CameraManager :=
  { pipeline := none, config := none, device := none }

/-- `CameraManager.is_connected`: `self.pipeline is not None`. -/
def is_connected (cm : CameraManager) : Bool := cm.pipeline.isSome

/-- External behaviour `connect` depends on: the device list produced by
`enumerate_devices` (enumeration failure already degraded to `[]` there),
and whether `_configure_streams` and `pipeline.start` succeed. -/
structure ConnectEnv where
  devices : List DeviceInfo
  configOk : Bool
  startOk : Bool
  deriving DecidableEq, Repr

/-- Python list indexing `xs[i]`: a negative `i` counts from the end;
`none` models the `IndexError` when `i` is out of range on either side. -/
def pyIndex {α : Type} (xs : List α) (i : Int) : Option α :=
  let j : Int := if i < 0 then (xs.length : Int) + i else i
  if j < 0 then none else xs.get? j.toNat

/-- `CameraManager.connect(device_index)`.  Mirrors the source order: check
`not devices` then `device_index >= len(devices)` (both raised before any
field is assigned); assign `self.pipeline` and `self.config`; evaluate
`devices[device_index]` (Python indexing — an `IndexError` here is caught
and wrapped, with the fields already assigned); run `_configure_streams`
and `pipeline.start`; on success assign `self.device`.  Every failure is
re-raised as a `CameraConnectionError` carrying the cause. -/
def connect (cm : CameraManager) (device_index : Int) (env : ConnectEnv) :
    CameraManager × Except ConnectFailure Unit :=
  let devices := env.devices
  if devices.isEmpty then
    (cm, Except.error ConnectFailure.noDevices)
  else if (devices.length : Int) ≤ device_index then
    (cm, Except.error ConnectFailure.indexOutOfRange)
  else
    let cm1 : CameraManager := { cm with pipeline := some (), config := some () }
    match pyIndex devices device_index with
    | none => (cm1, Except.error ConnectFailure.indexError)
    | some _target =>
      if env.configOk = false then
        (cm1, Except.error ConnectFailure.configFailed)
      else if env.startOk = false then
        (cm1, Except.error ConnectFailure.startFailed)
      else
        ({ cm1 with device := some () }, Except.ok ())

/-- `CameraManager.disconnect`.  `stopOk` is whether `pipeline.stop()`
returns normally.  The whole body sits in a `try` whose `except` only logs,
so the function never raises — hence it is total into `CameraManager`.
When `stop` raises, the exception skips the three `None` assignments,
leaving every field as it was. -/
def disconnect (cm : CameraManager) (stopOk : Bool) : CameraManager :=
  if cm.pipeline.isSome ∧ stopOk = false then
    cm
  else
    { pipeline := none, config := none, device := none }

/-! ## FrameCapturer (src/hardware/frame_capture.py) -/

/-- The mutable fields of `FrameCapturer`: `self.frame_count` and the
`self._depth_scale` cache (`None` until first computed).  The depth scale,
a small Python float, is modelled as a rational. -/
structure FrameCapturer where
  frame_count : Nat
  depth_scale : Option ℚ
  deriving DecidableEq, Repr

/-- `FrameCapturer.DEFAULT_DEPTH_SCALE = 0.001`. -/
def DEFAULT_DEPTH_SCALE : Option ℚ := some (1 / 1000)

/-- `FrameCapturer.__init__(camera_manager)`: raises `ValueError` when the
manager is not connected, otherwise starts with `frame_count = 0` and no
cached depth scale. -/
def FrameCapturer.init (cm : CameraManager) : Except Unit FrameCapturer :=
  if is_connected cm then Except.ok { frame_count := 0, depth_scale := none }
  else Except.error ()

/-- How the sensor behaves during one `capture_frame` call: the frameset
arrives, or `wait_for_frames` raises a `RuntimeError` (a timeout or another
SDK failure), or the frameset is falsy, or a stream is missing after
alignment. -/
inductive CaptureOutcome
  | success
  | timeout
  | runtimeFailure
  | emptyFrameset
  | missingAligned
  deriving DecidableEq, Repr

/-- `FrameCapturer.capture_frame()`.  On success the counter is incremented
and the aligned pair returned.  A `RuntimeError` whose text contains
"timeout" becomes `FrameCaptureError("Frame capture timeout: ...")`, any
other `RuntimeError` becomes `captureFailed`; the `FrameCaptureError`s
raised inside the `try` for an empty frameset or a missing aligned frame
are caught by `except Exception` and re-raised as "Unexpected error".
Every failing path leaves `frame_count` untouched. -/
def capture_frame (fc : FrameCapturer) (o : CaptureOutcome) :
    FrameCapturer × Except CaptureError Unit :=
  match o with
  | CaptureOutcome.success =>
    ({ fc with frame_count := fc.frame_count + 1 }, Except.ok ())
  | CaptureOutcome.timeout => (fc, Except.error CaptureError.captureTimeout)
  | CaptureOutcome.runtimeFailure => (fc, Except.error CaptureError.captureFailed)
  | CaptureOutcome.emptyFrameset => (fc, Except.error CaptureError.unexpected)
  | CaptureOutcome.missingAligned => (fc, Except.error CaptureError.unexpected)

/-- `FrameCapturer.get_frame_count()`. -/
def get_frame_count (fc : FrameCapturer) : Nat := fc.frame_count

/-- `FrameCapturer.get_depth_scale()`.  `query` is what one attempt at
`device.first_depth_sensor().get_depth_scale()` would yield (`none` when
that chain raises).  A cached value is returned as is; otherwise a
successful query is cached and returned; otherwise, since
`DEFAULT_DEPTH_SCALE` is not `None`, the default is cached and returned —
the raising branch is dead code while a default is configured. -/
def get_depth_scale (fc : FrameCapturer) (query : Option ℚ) :
    FrameCapturer × Except CaptureError ℚ :=
  match fc.depth_scale with
  | some s => (fc, Except.ok s)
  | none =>
    match query with
    | some v => ({ fc with depth_scale := some v }, Except.ok v)
    | none =>
      match DEFAULT_DEPTH_SCALE with
      | none => (fc, Except.error CaptureError.depthScaleFailed)
      | some d => ({ fc with depth_scale := some d }, Except.ok d)

/-! ## The recording loop and process (src/cli.py, main) -/

/-- One iteration of the `while True` loop, from the script's point of
view: a capture attempt with the given sensor outcome (on success the pair
is also saved and both counters advance), a `KeyboardInterrupt` delivered
at the loop boundary, or a successful iteration followed by the preview
exit key. -/
inductive StepOutcome
  | capture (o : CaptureOutcome)
  | interrupt
  | exitKey
  deriving DecidableEq, Repr

/-- State when the `while True` loop ends: the capturer, the local
variables `frame_idx` and `captured_frames`, and the indices of the frame
pairs saved by `save_frame_pair`, in order. -/
structure LoopResult where
  capturer : FrameCapturer
  frame_idx : Nat
  captured_frames : Nat
  savedIndices : List Nat
  deriving DecidableEq, Repr

/-- The `while True` loop of `main`.  Each successful capture is saved
under `frame_idx`, then `captured_frames += 1` and `frame_idx += 1`; a
`FrameCaptureError` or `KeyboardInterrupt` ends the loop with the state as
it was; the preview exit key breaks after a full iteration.  An exhausted
script models an interrupt arriving at the next boundary. -/
def runLoop (fc : FrameCapturer) (frame_idx captured_frames : Nat)
    (saved : List Nat) : List StepOutcome → LoopResult
  | [] =>
    { capturer := fc, frame_idx := frame_idx, captured_frames := captured_frames,
      savedIndices := saved }
  | StepOutcome.interrupt :: _ =>
    { capturer := fc, frame_idx := frame_idx, captured_frames := captured_frames,
      savedIndices := saved }
  | StepOutcome.exitKey :: _ =>
    { capturer := (capture_frame fc CaptureOutcome.success).1,
      frame_idx := frame_idx + 1, captured_frames := captured_frames + 1,
      savedIndices := saved ++ [frame_idx] }
  | StepOutcome.capture o :: rest =>
    match (capture_frame fc o).2 with
    | Except.ok _ =>
      runLoop (capture_frame fc o).1 (frame_idx + 1) (captured_frames + 1)
        (saved ++ [frame_idx]) rest
    | Except.error _ =>
      { capturer := fc, frame_idx := frame_idx, captured_frames := captured_frames,
        savedIndices := saved }

/-- Observable outcome of one run of `main`: the process exit code, the
connect result, whether `create_session_directory` was called, how many
times `save_metadata` was called and with which `frame_count` and
`depth_scale` entries, whether `disconnect` was called, the indices saved,
and the capturer's final counter (when one was constructed). -/
structure MainResult where
  exitCode : Nat
  connectResult : Except ConnectFailure Unit
  sessionDirCreated : Bool
  manifestWrites : Nat
  manifestFrameCount : Option Nat
  manifestDepthScale : Option ℚ
  disconnectCalled : Bool
  savedIndices : List Nat
  capturerCount : Option Nat
  deriving DecidableEq, Repr

/-- `main` of src/cli.py.  `connect` failing with any `CameraError` logs
and returns 1 before the recorder or capturer exist.  Otherwise the
capturer is constructed (its `ValueError` branch would propagate out of
`main`, exiting 1 with nothing created — unreachable after a successful
connect), the session directory is created, the loop runs, and the
`finally` block stamps `frame_count = captured_frames`, obtains the depth
scale (never raising, default configured), writes the manifest once and
calls `disconnect`; `main` then returns 0. -/
def runMain (env : ConnectEnv) (device_index : Int) (script : List StepOutcome)
    (depthQuery : Option ℚ) : MainResult :=
  match connect CameraManager.init device_index env with
  | (_, Except.error e) =>
    { exitCode := 1, connectResult := Except.error e, sessionDirCreated := false,
      manifestWrites := 0, manifestFrameCount := none, manifestDepthScale := none,
      disconnectCalled := false, savedIndices := [], capturerCount := none }
  | (cm1, Except.ok _) =>
    match FrameCapturer.init cm1 with
    | Except.error _ =>
      { exitCode := 1, connectResult := Except.ok (), sessionDirCreated := false,
        manifestWrites := 0, manifestFrameCount := none, manifestDepthScale := none,
        disconnectCalled := false, savedIndices := [], capturerCount := none }
    | Except.ok fc0 =>
      let r := runLoop fc0 0 0 [] script
      let ds := get_depth_scale r.capturer depthQuery
      { exitCode := 0, connectResult := Except.ok (), sessionDirCreated := true,
        manifestWrites := 1, manifestFrameCount := some r.captured_frames,
        manifestDepthScale := ds.2.toOption, disconnectCalled := true,
        savedIndices := r.savedIndices,
        capturerCount := some (get_frame_count ds.1) }

/-! ## Spec-side predicates and concrete fixtures -/

/-- The spec's "exactly 3-channel 8-bit" color image, of any height and
width. -/
def isColor3Channel8Bit (a : NpArray) : Prop :=
  a.dtype = Dtype.uint8 ∧ ∃ h w, a.shape = [h, w, 3]

/-- The spec's "single-channel 16-bit, 2-dimensional" depth image. -/
def isDepth16Bit2D (a : NpArray) : Prop :=
  a.dtype = Dtype.uint16 ∧ ∃ h w, a.shape = [h, w]

/-- The fixed negotiated color shape as a numpy shape: 800 rows, 1280
columns, 3 channels. -/
def fixedColorShape : List Nat := [RGB_HEIGHT, RGB_WIDTH, 3]

def d456a : DeviceInfo :=
  { name := "Intel RealSense D456", serial := "123456", firmware := "5.12.5",
    product_id := "0B64" }

def d456b : DeviceInfo :=
  { name := "Intel RealSense D456", serial := "654321", firmware := "5.12.5",
    product_id := "0B64" }

def oneDeviceEnv : ConnectEnv :=
  { devices := [d456a], configOk := true, startOk := true }

def twoDeviceEnv : ConnectEnv :=
  { devices := [d456a, d456b], configOk := true, startOk := true }

def noStartEnv : ConnectEnv :=
  { devices := [d456a, d456b], configOk := true, startOk := false }

def connectedCM : CameraManager :=
  { pipeline := some (), config := some (), device := some () }

def freshCapturer : FrameCapturer := { frame_count := 0, depth_scale := none }

def tinyRgb : NpArray := { dtype := Dtype.uint8, shape := [2, 2, 3] }

def tinyDepth : NpArray := { dtype := Dtype.uint16, shape := [2, 2] }

def badRgb : NpArray := { dtype := Dtype.uint16, shape := [2, 2, 3] }

def okRgb : NpArray := { dtype := Dtype.uint8, shape := [800, 1280, 3] }

def okDepth : NpArray := { dtype := Dtype.uint16, shape := [800, 1280] }

def demoDir : String := "/data/session_demo"

def allWritesOk : WriteEnv := { rgbWriteOk := true, depthWriteOk := true }

def demoRgbPath0 : String := "/data/session_demo/rgb/frame_000000_rgb.png"

def demoDepthPath0 : String := "/data/session_demo/depth/frame_000000_depth.npy"

def demoRgbPath7 : String := "/data/session_demo/rgb/frame_000007_rgb.png"

def demoDepthPath7 : String := "/data/session_demo/depth/frame_000007_depth.npy"

def tmpSessions : String := "/tmp/sessions"

def novemberTenth : LocalDateTime :=
  { year := 2025, month := 11, day := 10, hour := 1, minute := 54, second := 30 }

/-! ## Helper lemmas -/

theorem pyIndex_eq_none_iff {α : Type} (xs : List α) (i : Int) :
    pyIndex xs i = none ↔ ((xs.length : Int) ≤ i ∨ i < -(xs.length : Int)) := by
  unfold pyIndex
  by_cases hi : i < 0
  · simp only [hi, if_true]
    by_cases hj : (xs.length : Int) + i < 0
    · simp only [hj, if_true]
      constructor
      · intro _; right; omega
      · intro _; trivial
    · simp only [hj, if_false, List.get?_eq_none]
      omega
  · simp only [hi, if_false]
    rw [List.get?_eq_none]
    omega

theorem pyIndex_isSome {α : Type} (xs : List α) (i : Int)
    (h1 : -(xs.length : Int) ≤ i) (h2 : i < (xs.length : Int)) :
    ∃ a, pyIndex xs i = some a := by
  cases hp : pyIndex xs i with
  | some a => exact ⟨a, rfl⟩
  | none =>
    have := (pyIndex_eq_none_iff xs i).mp hp
    omega

theorem colorCheck_iff (a : NpArray) :
    (a.dtype = Dtype.uint8 ∧ a.ndim = 3 ∧ a.shape.getD 2 0 = 3) ↔
      isColor3Channel8Bit a := by
  unfold isColor3Channel8Bit NpArray.ndim
  constructor
  · rintro ⟨hd, hn, hg⟩
    refine ⟨hd, ?_⟩
    obtain ⟨x, y, z, hxyz⟩ := List.length_eq_three.mp hn
    rw [hxyz] at hg
    exact ⟨x, y, by rw [hxyz]; simp_all [List.getD]⟩
  · rintro ⟨hd, h, w, hs⟩
    exact ⟨hd, by rw [hs]; rfl, by rw [hs]; rfl⟩

theorem depthCheck_iff (a : NpArray) :
    (a.dtype = Dtype.uint16 ∧ a.ndim = 2) ↔ isDepth16Bit2D a := by
  unfold isDepth16Bit2D NpArray.ndim
  constructor
  · rintro ⟨hd, hn⟩
    obtain ⟨x, y, hxy⟩ := List.length_eq_two.mp hn
    exact ⟨hd, x, y, hxy⟩
  · rintro ⟨hd, h, w, hs⟩
    exact ⟨hd, by rw [hs]; rfl⟩

theorem map_add_range_succ (fi m : Nat) :
    (List.range (m + 1)).map (fun k => fi + k) =
      fi :: (List.range m).map (fun k => fi + 1 + k) := by
  rw [List.range_succ_eq_map]
  simp only [List.map_cons, List.map_map, Nat.add_zero]
  refine congrArg (fun l => fi :: l) ?_
  apply List.map_congr_left
  intro a _
  simp [Function.comp]
  omega

theorem runLoop_replicate_success (n : Nat) :
    ∀ (fc : FrameCapturer) (fi cf : Nat) (saved : List Nat)
      (rest : List StepOutcome),
    runLoop fc fi cf saved
        (List.replicate n (StepOutcome.capture CaptureOutcome.success) ++ rest) =
      runLoop { frame_count := fc.frame_count + n, depth_scale := fc.depth_scale }
        (fi + n) (cf + n) (saved ++ (List.range n).map (fun k => fi + k)) rest := by
  induction n with
  | zero =>
    intro fc fi cf saved rest
    simp [runLoop]
  | succ m ih =>
    intro fc fi cf saved rest
    rw [List.replicate_succ, List.cons_append]
    have hstep : runLoop fc fi cf saved
        (StepOutcome.capture CaptureOutcome.success ::
          (List.replicate m (StepOutcome.capture CaptureOutcome.success) ++ rest)) =
        runLoop { frame_count := fc.frame_count + 1, depth_scale := fc.depth_scale }
          (fi + 1) (cf + 1) (saved ++ [fi])
          (List.replicate m (StepOutcome.capture CaptureOutcome.success) ++ rest) := rfl
    rw [hstep, ih]
    rw [map_add_range_succ fi m]
    have h1 : fc.frame_count + 1 + m = fc.frame_count + (m + 1) := by omega
    have h2 : fi + 1 + m = fi + (m + 1) := by omega
    have h3 : cf + 1 + m = cf + (m + 1) := by omega
    rw [h1, h2, h3]
    simp [List.append_assoc]

theorem runLoop_capture_error (fc : FrameCapturer) (fi cf : Nat)
    (saved : List Nat) (o : CaptureOutcome) (ho : o ≠ CaptureOutcome.success)
    (rest : List StepOutcome) :
    runLoop fc fi cf saved (StepOutcome.capture o :: rest) =
      { capturer := fc, frame_idx := fi, captured_frames := cf,
        savedIndices := saved } := by
  cases o with
  | success => exact absurd rfl ho
  | timeout => rfl
  | runtimeFailure => rfl
  | emptyFrameset => rfl
  | missingAligned => rfl

theorem get_depth_scale_fresh (c : Nat) (q : Option ℚ) :
    get_depth_scale { frame_count := c, depth_scale := none } q =
      ({ frame_count := c, depth_scale := some (q.getD (1 / 1000)) },
        Except.ok (q.getD (1 / 1000))) := by
  cases q <;> simp [get_depth_scale, DEFAULT_DEPTH_SCALE]

/-! ## Claim theorems -/

/-- C9: `create_session_directory(base_dir)` creates `base_dir` if absent,
creates inside it a session directory named from the local timestamp as
`session_YYYYMMDD_HHMMSS` with its `rgb` and `depth` subdirectories, and
returns the session directory path; at 2025-11-10T01:54:30 with base
`/tmp/sessions` it creates `/tmp/sessions/session_20251110_015430/rgb` and
`.../depth`. -/
theorem c9_session_directory_layout :
    (∀ (dirs : List String) (base : String) (t : LocalDateTime),
      (create_session_directory dirs base t).2 =
        base ++ "/session_" ++ strftimeSession t ∧
      base ∈ (create_session_directory dirs base t).1 ∧
      (create_session_directory dirs base t).2 ∈ (create_session_directory dirs base t).1 ∧
      (create_session_directory dirs base t).2 ++ "/rgb" ∈
        (create_session_directory dirs base t).1 ∧
      (create_session_directory dirs base t).2 ++ "/depth" ∈
        (create_session_directory dirs base t).1) ∧
    (create_session_directory [] tmpSessions novemberTenth).2 =
      "/tmp/sessions/session_20251110_015430" ∧
    "/tmp/sessions/session_20251110_015430/rgb" ∈
      (create_session_directory [] tmpSessions novemberTenth).1 ∧
    "/tmp/sessions/session_20251110_015430/depth" ∈
      (create_session_directory [] tmpSessions novemberTenth).1 := by
  refine ⟨fun dirs base t => ?_, by decide, by decide, by decide⟩
  simp [create_session_directory]

/-- C6: when the initial connection fails (for example `device_index = 5`
with only 2 devices enumerated), `main` aborts with the Connection error
before `create_session_directory` runs and returns exit code 1; no
manifest is written. -/
theorem c6_connect_failure_aborts (env : ConnectEnv) (idx : Int)
    (script : List StepOutcome) (q : Option ℚ) (cm1 : CameraManager)
    (e : ConnectFailure)
    (h : connect CameraManager.init idx env = (cm1, Except.error e)) :
    (runMain env idx script q).exitCode = 1 ∧
    (runMain env idx script q).sessionDirCreated = false ∧
    (runMain env idx script q).manifestWrites = 0 ∧
    (runMain env idx script q).connectResult = Except.error e := by
  unfold runMain
  rw [h]
  exact ⟨rfl, rfl, rfl, rfl⟩

theorem c6_connect_failure_aborts_witness :
    (runMain twoDeviceEnv 5 [] none).exitCode = 1 ∧
    (runMain twoDeviceEnv 5 [] none).sessionDirCreated = false ∧
    (runMain twoDeviceEnv 5 [] none).manifestWrites = 0 ∧
    (runMain twoDeviceEnv 5 [] none).connectResult =
      Except.error ConnectFailure.indexOutOfRange :=
  c6_connect_failure_aborts twoDeviceEnv 5 [] none CameraManager.init
    ConnectFailure.indexOutOfRange (by decide)

/-- C4 counterexample: when `pipeline.stop()` raises inside `disconnect`,
the `except` block only logs and the field-clearing assignments are
skipped, so `is_connected()` still returns true after the call — the claim
that every call leaves `is_connected()` false is wrong. -/
theorem c4_failed_stop_leaves_connected :
    is_connected (disconnect connectedCM false) = true := by decide

/-- C4 amended: `disconnect` never raises (it is total) and is safe to
call any number of times; when `pipeline.stop()` returns normally — in
particular always when no pipeline is active, e.g. after a connect that
never assigned one — all session state is cleared and `is_connected()` is
false afterwards, and a repeated call is a no-op; but when `stop()` raises,
the failure is only logged and the state is left as it was. -/
theorem c4_disconnect_total_idempotent (cm : CameraManager) (stopOk : Bool) :
    (stopOk = true →
      disconnect cm stopOk = { pipeline := none, config := none, device := none } ∧
      is_connected (disconnect cm stopOk) = false) ∧
    (cm.pipeline = none →
      disconnect cm stopOk = { pipeline := none, config := none, device := none } ∧
      is_connected (disconnect cm stopOk) = false) ∧
    disconnect (disconnect cm true) stopOk = disconnect cm true ∧
    (stopOk = false → cm.pipeline.isSome = true → disconnect cm stopOk = cm) := by
  unfold disconnect is_connected
  cases stopOk <;> cases hp : cm.pipeline <;> simp

theorem c4_disconnect_total_idempotent_witness :
    (disconnect connectedCM true = { pipeline := none, config := none, device := none } ∧
      is_connected (disconnect connectedCM true) = false) ∧
    disconnect connectedCM false = connectedCM :=
  ⟨(c4_disconnect_total_idempotent connectedCM true).1 rfl,
    (c4_disconnect_total_idempotent connectedCM false).2.2.2 rfl rfl⟩

/-- C7: `get_depth_scale()` called twice returns the same value both
times — the first value obtained (the sensor query's answer, or the 0.001
fallback when the query fails) is cached — and it never raises with the
default configured, even if a second query would answer differently. -/
theorem c7_depth_scale_cached (fc : FrameCapturer) (q1 q2 : Option ℚ) :
    ∃ v : ℚ,
      (get_depth_scale fc q1).2 = Except.ok v ∧
      (get_depth_scale (get_depth_scale fc q1).1 q2).2 = Except.ok v ∧
      (fc.depth_scale = none → v = q1.getD (1 / 1000)) := by
  cases hs : fc.depth_scale with
  | some s =>
    refine ⟨s, ?_, ?_, ?_⟩
    · simp [get_depth_scale, hs]
    · simp [get_depth_scale, hs]
    · intro h; exact Option.noConfusion h
  | none =>
    cases hq : q1 with
    | some v =>
      refine ⟨v, ?_, ?_, ?_⟩ <;>
        simp [get_depth_scale, hs, DEFAULT_DEPTH_SCALE]
    | none =>
      refine ⟨1 / 1000, ?_, ?_, ?_⟩ <;>
        simp [get_depth_scale, hs, DEFAULT_DEPTH_SCALE]

theorem c7_depth_scale_cached_witness :
    (get_depth_scale freshCapturer (some (1 / 4000))).2 = Except.ok (1 / 4000 : ℚ) ∧
    (get_depth_scale (get_depth_scale freshCapturer (some (1 / 4000))).1 none).2 =
      Except.ok (1 / 4000 : ℚ) := by
  obtain ⟨v, h1, h2, h3⟩ :=
    c7_depth_scale_cached freshCapturer (some (1 / 4000)) none
  have hv : v = 1 / 4000 := by simpa using h3 rfl
  rw [hv] at h1 h2
  exact ⟨h1, h2⟩

/-- C1 counterexample: a 2×2 color image is well-typed (3-channel 8-bit)
but does not have the fixed negotiated shape 800×1280×3, yet
`save_frame_pair` raises no Validation error and writes both files — the
code never compares the image shape against the negotiated resolution. -/
theorem c1_fixed_shape_not_checked :
    tinyRgb.shape ≠ fixedColorShape ∧
    (save_frame_pair 0 tinyRgb tinyDepth demoDir allWritesOk).result =
      Except.ok (demoRgbPath0, demoDepthPath0) := by decide

/-- C1 amended: `save_frame_pair` raises a Validation error exactly when
the color image is not a 3-channel 8-bit array (of any height and width)
or the depth image is not a 2-dimensional 16-bit array — the fixed
negotiated H×W is not checked — and a Validation error is raised before
any file is written. -/
theorem c1_validation_checks_dtype_and_dims (idx : Nat) (rgb depth : NpArray)
    (dir : String) (env : WriteEnv) :
    ((save_frame_pair idx rgb depth dir env).result =
        Except.error SaveError.validation ↔
      ¬(isColor3Channel8Bit rgb ∧ isDepth16Bit2D depth)) ∧
    ((save_frame_pair idx rgb depth dir env).result =
        Except.error SaveError.validation →
      (save_frame_pair idx rgb depth dir env).written = []) := by
  have hA := colorCheck_iff rgb
  have hB := depthCheck_iff depth
  unfold save_frame_pair
  split_ifs with h1 h2 h3 h4 <;>
    exact ⟨by simp; try tauto, by intro hc; simp_all⟩

theorem c1_validation_checks_dtype_and_dims_witness :
    (save_frame_pair 0 badRgb tinyDepth demoDir allWritesOk).result =
      Except.error SaveError.validation ∧
    (save_frame_pair 0 badRgb tinyDepth demoDir allWritesOk).written = [] := by
  have h := c1_validation_checks_dtype_and_dims 0 badRgb tinyDepth demoDir allWritesOk
  have hv : (save_frame_pair 0 badRgb tinyDepth demoDir allWritesOk).result =
      Except.error SaveError.validation :=
    h.1.mpr (fun hc => absurd hc.1.1 (by decide))
  exact ⟨hv, h.2 hv⟩

/-- C8: for every frame index a well-formed pair is written to
`rgb/frame_<6-digit zero-padded index>_rgb.png` and
`depth/frame_<6-digit zero-padded index>_depth.npy` under the session
directory, exactly those two paths are returned, and a failure of either
write raises an I/O error. -/
theorem c8_save_paths (idx : Nat) (rgb depth : NpArray) (dir : String)
    (env : WriteEnv) (hr : isColor3Channel8Bit rgb) (hd : isDepth16Bit2D depth) :
    (env.rgbWriteOk = true → env.depthWriteOk = true →
      (save_frame_pair idx rgb depth dir env).result =
        Except.ok (dir ++ "/rgb/frame_" ++ padZero 6 idx ++ "_rgb.png",
          dir ++ "/depth/frame_" ++ padZero 6 idx ++ "_depth.npy") ∧
      (save_frame_pair idx rgb depth dir env).written =
        [dir ++ "/rgb/frame_" ++ padZero 6 idx ++ "_rgb.png",
          dir ++ "/depth/frame_" ++ padZero 6 idx ++ "_depth.npy"]) ∧
    ((env.rgbWriteOk = false ∨ env.depthWriteOk = false) →
      (save_frame_pair idx rgb depth dir env).result =
        Except.error SaveError.ioFailure) := by
  have hr' : rgb.dtype = Dtype.uint8 ∧ rgb.ndim = 3 ∧ rgb.shape.getD 2 0 = 3 :=
    (colorCheck_iff rgb).mpr hr
  have hd' : depth.dtype = Dtype.uint16 ∧ depth.ndim = 2 :=
    (depthCheck_iff depth).mpr hd
  unfold save_frame_pair
  rw [if_neg (not_not_intro hr'), if_neg (not_not_intro hd')]
  constructor
  · intro h1 h2
    rw [if_neg (by rw [h1]; exact fun hc => Bool.noConfusion hc),
      if_neg (by rw [h2]; exact fun hc => Bool.noConfusion hc)]
    exact ⟨rfl, rfl⟩
  · intro hfail
    rcases hfail with h | h
    · rw [if_pos h]
    · by_cases h3 : env.rgbWriteOk = false
      · rw [if_pos h3]
      · rw [if_neg h3, if_pos h]

theorem c8_save_paths_witness :
    (save_frame_pair 7 okRgb okDepth demoDir allWritesOk).result =
      Except.ok (demoRgbPath7, demoDepthPath7) := by
  have h := (c8_save_paths 7 okRgb okDepth demoDir allWritesOk
    ⟨rfl, 800, 1280, rfl⟩ ⟨rfl, 800, 1280, rfl⟩).1 rfl rfl
  exact h.1.trans (by decide)

/-- C2: N successful `capture_frame()` calls in the recording loop save
frame indices exactly 0..N-1 with no gaps or repeats, and
`get_frame_count()` afterwards returns N, the number of successful
captures since construction; a failed capture raises and leaves the count
unchanged. -/
theorem c2_capture_indices_and_count (n : Nat) :
    (runLoop freshCapturer 0 0 []
        (List.replicate n (StepOutcome.capture CaptureOutcome.success))).savedIndices =
      List.range n ∧
    get_frame_count (runLoop freshCapturer 0 0 []
        (List.replicate n (StepOutcome.capture CaptureOutcome.success))).capturer = n ∧
    (∀ (fc : FrameCapturer) (o : CaptureOutcome), o ≠ CaptureOutcome.success →
      ∃ err, (capture_frame fc o).2 = Except.error err ∧
        get_frame_count (capture_frame fc o).1 = get_frame_count fc) := by
  have h := runLoop_replicate_success n freshCapturer 0 0 [] []
  rw [List.append_nil] at h
  refine ⟨?_, ?_, ?_⟩
  · rw [h]
    simp [runLoop, freshCapturer]
  · rw [h]
    simp [runLoop, get_frame_count, freshCapturer]
  · intro fc o ho
    cases o with
    | success => exact absurd rfl ho
    | timeout => exact ⟨CaptureError.captureTimeout, rfl, rfl⟩
    | runtimeFailure => exact ⟨CaptureError.captureFailed, rfl, rfl⟩
    | emptyFrameset => exact ⟨CaptureError.unexpected, rfl, rfl⟩
    | missingAligned => exact ⟨CaptureError.unexpected, rfl, rfl⟩

theorem c2_capture_indices_and_count_witness :
    (runLoop freshCapturer 0 0 []
        (List.replicate 3 (StepOutcome.capture CaptureOutcome.success))).savedIndices =
      List.range 3 ∧
    get_frame_count (capture_frame freshCapturer CaptureOutcome.timeout).1 =
      get_frame_count freshCapturer := by
  have h := c2_capture_indices_and_count 3
  obtain ⟨err, _, hcount⟩ := h.2.2 freshCapturer CaptureOutcome.timeout (by decide)
  exact ⟨h.1, hcount⟩

/-- C5: a per-frame Capture error after n successful frames (for example a
timeout at frame index 7 after frames 0..6) ends the loop gracefully: the
manifest is written exactly once after the loop, its frame_count is the
number n of frames captured and persisted, `disconnect` is called, and
`main` returns exit code 0. -/
theorem c5_capture_error_graceful (n : Nat) (o : CaptureOutcome)
    (ho : o ≠ CaptureOutcome.success) (q : Option ℚ) :
    runMain oneDeviceEnv 0
        (List.replicate n (StepOutcome.capture CaptureOutcome.success) ++
          [StepOutcome.capture o]) q =
      { exitCode := 0, connectResult := Except.ok (), sessionDirCreated := true,
        manifestWrites := 1, manifestFrameCount := some n,
        manifestDepthScale := some (q.getD (1 / 1000)),
        disconnectCalled := true, savedIndices := List.range n,
        capturerCount := some n } := by
  have hc : connect CameraManager.init 0 oneDeviceEnv =
      (connectedCM, Except.ok ()) := by decide
  have hloop : runLoop freshCapturer 0 0 []
      (List.replicate n (StepOutcome.capture CaptureOutcome.success) ++
        [StepOutcome.capture o]) =
      { capturer := { frame_count := n, depth_scale := none }, frame_idx := n,
        captured_frames := n, savedIndices := List.range n } := by
    rw [runLoop_replicate_success n freshCapturer 0 0 [] [StepOutcome.capture o]]
    rw [runLoop_capture_error _ _ _ _ o ho]
    simp [freshCapturer]
  have hds := get_depth_scale_fresh n q
  simp only [runMain, hc, FrameCapturer.init, connectedCM, is_connected,
    Option.isSome, if_true]
  simp only [freshCapturer] at hloop
  simp only [hloop, hds, get_frame_count, Except.toOption]

theorem c5_capture_error_graceful_witness :
    runMain oneDeviceEnv 0
        (List.replicate 7 (StepOutcome.capture CaptureOutcome.success) ++
          [StepOutcome.capture CaptureOutcome.timeout]) none =
      { exitCode := 0, connectResult := Except.ok (), sessionDirCreated := true,
        manifestWrites := 1, manifestFrameCount := some 7,
        manifestDepthScale := some ((none : Option ℚ).getD (1 / 1000)),
        disconnectCalled := true, savedIndices := List.range 7,
        capturerCount := some 7 } :=
  c5_capture_error_graceful 7 CaptureOutcome.timeout (by decide) none

/-- C3 counterexample: device_index = -1 is not an in-range 0-based index
into a 2-device enumeration, yet `connect` raises no Connection error:
Python negative indexing silently selects the last device. -/
theorem c3_negative_index_accepted :
    ¬(0 ≤ (-1 : Int) ∧ (-1 : Int) < (twoDeviceEnv.devices.length : Int)) ∧
    (connect CameraManager.init (-1) twoDeviceEnv).2 = Except.ok () := by decide

/-- C3 amended: `connect(device_index)` fails with a Connection error
exactly when no devices are present, `device_index >= len(devices)`, or
`device_index < -len(devices)` (the wrapped Python IndexError), or the
underlying stream configuration or pipeline start fails — every such
failure is wrapped in a Connection error, never swallowed; but an index in
`[-len(devices), 0)` is accepted via Python negative indexing instead of
being rejected. -/
theorem c3_connect_error_iff (env : ConnectEnv) (idx : Int) :
    (∃ e, (connect CameraManager.init idx env).2 = Except.error e) ↔
      (env.devices = [] ∨ (env.devices.length : Int) ≤ idx ∨
        idx < -(env.devices.length : Int) ∨ env.configOk = false ∨
        env.startOk = false) := by
  unfold connect
  by_cases h0 : env.devices.isEmpty = true
  · have hnil : env.devices = [] := by
      cases henv : env.devices with
      | nil => rfl
      | cons a l => rw [henv] at h0; cases h0
    simp [h0, hnil]
  · have hne : ¬env.devices = [] := by
      intro hnil
      rw [hnil] at h0
      exact h0 rfl
    by_cases h1 : (env.devices.length : Int) ≤ idx
    · simp [h0, h1]
    · cases hp : pyIndex env.devices idx with
      | none =>
        have hlow : idx < -(env.devices.length : Int) := by
          have := (pyIndex_eq_none_iff env.devices idx).mp hp
          omega
        simp [h0, h1, hp, hlow, hne]
      | some t =>
        have hnlow : ¬idx < -(env.devices.length : Int) := by
          intro hcontra
          have : pyIndex env.devices idx = none :=
            (pyIndex_eq_none_iff env.devices idx).mpr (Or.inr hcontra)
          rw [hp] at this
          cases this
        by_cases hcf : env.configOk = false
        · simp [h0, h1, hp, hcf, hne, hnlow]
        · by_cases hsf : env.startOk = false
          · simp [h0, h1, hp, hcf, hsf, hne, hnlow]
          · simp [h0, h1, hp, hcf, hsf, hne, hnlow]

/-- C10: when `connect` fails after the pipeline object was constructed
(stream configuration or pipeline start failed), the partial session state
is not rolled back: the raised Connection error leaves `self.pipeline`
assigned, so `is_connected()` returns true although no connection was
established. -/
theorem c10_failed_connect_leaves_connected (env : ConnectEnv) (idx : Int)
    (hne : env.devices ≠ []) (hlt : idx < (env.devices.length : Int))
    (hge : -(env.devices.length : Int) ≤ idx)
    (hfail : env.configOk = false ∨ env.startOk = false) :
    ∃ (cm1 : CameraManager) (e : ConnectFailure),
      connect CameraManager.init idx env = (cm1, Except.error e) ∧
      is_connected cm1 = true := by
  obtain ⟨t, ht⟩ := pyIndex_isSome env.devices idx hge hlt
  have h0 : ¬env.devices.isEmpty = true := by
    cases henv : env.devices with
    | nil => exact absurd henv hne
    | cons a l => intro hcontra; cases hcontra
  have h1 : ¬(env.devices.length : Int) ≤ idx := not_le.mpr hlt
  unfold connect
  by_cases hcf : env.configOk = false
  · refine ⟨{ pipeline := some (), config := some (), device := none },
      ConnectFailure.configFailed, ?_, rfl⟩
    simp [h0, h1, ht, hcf, CameraManager.init]
  · rcases hfail with h | hsf
    · exact absurd h hcf
    · refine ⟨{ pipeline := some (), config := some (), device := none },
        ConnectFailure.startFailed, ?_, rfl⟩
      simp [h0, h1, ht, hcf, hsf, CameraManager.init]

theorem c10_failed_connect_leaves_connected_witness :
    ∃ (cm1 : CameraManager) (e : ConnectFailure),
      connect CameraManager.init 0 noStartEnv = (cm1, Except.error e) ∧
      is_connected cm1 = true :=
  c10_failed_connect_leaves_connected noStartEnv 0 (by decide) (by decide)
    (by decide) (Or.inr (by decide))

end RealsenseRecorder
